import Mathlib

/-!
Shallow embedding of the espnow-led-controller receiver core
(`src/drone_side_esp/src/patterns.h`, `esp_now_handler.h`, `led_controller.h`,
`main.cpp`) and proofs about it.

Machine integers are modelled as `Nat`/`Int`; 32-bit unsigned wraparound
(`unsigned long` on the ESP32, used by `millis()` timing and the message
counter) is made explicit via reduction modulo `2 ^ 32` at the points where
the C code performs unsigned arithmetic.
-/

namespace DroneLed

/-- Modulus of the ESP32 `unsigned long` / `uint32_t` arithmetic (2^32). -/
def M32 : Nat := 4294967296

/-- C unsigned 32-bit subtraction `a - b`, as computed by expressions such as
`millis() - lastMessageTime` in `esp_now_handler.h` and
`now - cycleStart` in `led_controller.h`. -/
def usub32 (a b : Nat) : Nat := (a + (M32 - b % M32)) % M32

/-- The closed set of LED pattern identifiers, from `enum class LedPattern`
in `patterns.h`. -/
inductive LedPattern where
  | IDLE
  | TAKING_OFF
  | HOVERING
  | FLYING
  | LANDING
  | EMERGENCY
  | LOW_BATTERY
  | BRAINWAVE
deriving DecidableEq, Repr

/-- An RGB color triple, each channel an 8-bit value (FastLED `CRGB`). -/
structure CRGB where
  r : Nat
  g : Nat
  b : Nat
deriving DecidableEq, Repr

/-- The all-channels-zero color produced by `FastLED.clear()`. -/
def CRGB.black : CRGB := ⟨0, 0, 0⟩

/-- FastLED `scale8` with the default `FASTLED_SCALE8_FIXED` correction:
`(i * scale + i) >> 8`, so that scale 255 is the identity. -/
def scale8 (i s : Nat) : Nat := (i * s + i) / 256

/-- FastLED `CRGB::nscale8`: scale every channel by `s` via `scale8`. -/
def nscale8 (c : CRGB) (s : Nat) : CRGB := ⟨scale8 c.r s, scale8 c.g s, scale8 c.b s⟩

/-- Pattern configuration value, from `struct PatternConfig` in `patterns.h`:
`brightness` is a `uint8_t`, `speed` a `uint16_t` (milliseconds per cycle). -/
structure PatternConfig where
  pattern : LedPattern
  color : CRGB
  brightness : Nat
  speed : Nat
deriving DecidableEq, Repr

namespace PatternDefaults

/-- Default brightness from `PatternDefaults::DEFAULT_BRIGHTNESS`. -/
def DEFAULT_BRIGHTNESS : Nat := 128

def COLOR_BLUE : CRGB := ⟨0, 0, 255⟩
def COLOR_GREEN : CRGB := ⟨0, 255, 0⟩
def COLOR_WHITE : CRGB := ⟨255, 255, 255⟩
def COLOR_YELLOW : CRGB := ⟨255, 255, 0⟩
def COLOR_RED : CRGB := ⟨255, 0, 0⟩
def COLOR_ORANGE : CRGB := ⟨255, 165, 0⟩
def COLOR_CYAN_BLUE : CRGB := ⟨0, 100, 255⟩

def SPEED_STATIC : Nat := 0
def SPEED_SLOW_BLINK : Nat := 1000
def SPEED_FAST_BLINK : Nat := 200
def SPEED_FLOW : Nat := 100
def SPEED_BRAINWAVE : Nat := 50

/-- Catalog of default configurations, from `PatternDefaults::getDefault`
in `patterns.h`. -/
def getDefault (pattern : LedPattern) : PatternConfig :=
  match pattern with
  | .IDLE => ⟨pattern, COLOR_BLUE, DEFAULT_BRIGHTNESS, SPEED_STATIC⟩
  | .TAKING_OFF => ⟨pattern, COLOR_GREEN, DEFAULT_BRIGHTNESS, SPEED_FLOW⟩
  | .HOVERING => ⟨pattern, COLOR_GREEN, DEFAULT_BRIGHTNESS, SPEED_SLOW_BLINK⟩
  | .FLYING => ⟨pattern, COLOR_WHITE, DEFAULT_BRIGHTNESS, SPEED_FAST_BLINK⟩
  | .LANDING => ⟨pattern, COLOR_YELLOW, DEFAULT_BRIGHTNESS, SPEED_FLOW⟩
  | .EMERGENCY => ⟨pattern, COLOR_RED, DEFAULT_BRIGHTNESS, SPEED_FAST_BLINK⟩
  | .LOW_BATTERY => ⟨pattern, COLOR_ORANGE, DEFAULT_BRIGHTNESS, SPEED_SLOW_BLINK⟩
  | .BRAINWAVE => ⟨pattern, COLOR_CYAN_BLUE, 180, SPEED_BRAINWAVE⟩

end PatternDefaults

/-- String-to-pattern conversion, from `stringToPattern` in `patterns.h`:
eight exact case-sensitive comparisons, with `IDLE` as the fallback for any
other string. -/
def stringToPattern (s : String) : LedPattern :=
  if s = "IDLE" then .IDLE
  else if s = "TAKING_OFF" then .TAKING_OFF
  else if s = "HOVERING" then .HOVERING
  else if s = "FLYING" then .FLYING
  else if s = "LANDING" then .LANDING
  else if s = "EMERGENCY" then .EMERGENCY
  else if s = "LOW_BATTERY" then .LOW_BATTERY
  else if s = "BRAINWAVE" then .BRAINWAVE
  else .IDLE

/-- Pattern-to-string conversion, from `patternToString` in `patterns.h`. -/
def patternToString (p : LedPattern) : String :=
  match p with
  | .IDLE => "IDLE"
  | .TAKING_OFF => "TAKING_OFF"
  | .HOVERING => "HOVERING"
  | .FLYING => "FLYING"
  | .LANDING => "LANDING"
  | .EMERGENCY => "EMERGENCY"
  | .LOW_BATTERY => "LOW_BATTERY"
  | .BRAINWAVE => "BRAINWAVE"

/-- The eight canonical pattern names recognized by `stringToPattern`. -/
def validPatternNames : List String :=
  ["IDLE", "TAKING_OFF", "HOVERING", "FLYING", "LANDING",
   "EMERGENCY", "LOW_BATTERY", "BRAINWAVE"]

/-! ## Parsed JSON documents

The receive handler reads a document parsed by ArduinoJson. A successfully
deserialized document is modelled as a `JVal`; a `DeserializationError`
(syntactically invalid JSON, null input, or empty input, as exercised by
`test_json_parsing.cpp`) is modelled as `none` at the decoder's entry. -/

/-- A parsed JSON value. Numbers are modelled as integers, which covers every
value the decoder inspects. -/
inductive JVal where
  | jnull
  | jbool (b : Bool)
  | jnum (n : Int)
  | jstr (s : String)
  | jarr (elems : List JVal)
  | jobj (fields : List (String × JVal))

/-- First binding for a key in a JSON object (ArduinoJson `operator[]`). -/
def lookupKey (fields : List (String × JVal)) (key : String) : Option JVal :=
  match fields with
  | [] => none
  | (k, v) :: rest => if k = key then some v else lookupKey rest key

/-- Reading `doc[key]` as `const char*`: the string when the member exists and
is a string, otherwise a null pointer (`none`). -/
def fieldAsStr (fields : List (String × JVal)) (key : String) : Option String :=
  match lookupKey fields key with
  | some (.jstr s) => some s
  | _ => none

/-- Reading `doc[key]` as `JsonObject`: the bindings when the member exists and
is an object, otherwise a null object (`none`). -/
def fieldAsObj (fields : List (String × JVal)) (key : String) :
    Option (List (String × JVal)) :=
  match lookupKey fields key with
  | some (.jobj fs) => some fs
  | _ => none

/-- Reading `doc[key]` as `JsonArray`: a missing or non-array member behaves as
a null array of size 0. -/
def fieldAsArr (fields : List (String × JVal)) (key : String) : List JVal :=
  match lookupKey fields key with
  | some (.jarr xs) => xs
  | _ => []

/-- ArduinoJson `containsKey`. -/
def containsKey (fields : List (String × JVal)) (key : String) : Bool :=
  (lookupKey fields key).isSome

/-- ArduinoJson 6 `as<uint8_t>` on a value: a numeric value is returned when
it fits the target range 0-255; an integer outside that range, like a missing
or non-numeric value, reads as 0 (the library's range-checked conversion,
since ArduinoJson 6.10). -/
def asUInt8 (v : Option JVal) : Nat :=
  match v with
  | some (.jnum n) => if 0 ≤ n ∧ n ≤ 255 then n.toNat else 0
  | _ => 0

/-- ArduinoJson 6 `as<uint16_t>` on a value: a numeric value is returned when
it fits the target range 0-65535; an integer outside that range, like a
missing or non-numeric value, reads as 0 (the library's range-checked
conversion, since ArduinoJson 6.10). -/
def asUInt16 (v : Option JVal) : Nat :=
  match v with
  | some (.jnum n) => if 0 ≤ n ∧ n ≤ 65535 then n.toNat else 0
  | _ => 0

/-- The decode pipeline of `EspNowHandler::handleReceivedData`
(`esp_now_handler.h` lines 80-146), identical to the extracted test helper
`parseLedCommand` in `test_json_parsing.cpp`: reject deserialization errors,
require `type == "led_command"`, a `data` object and a string `pattern` field;
seed with the catalog default for the (fallback-normalized) pattern; then
override color only when the color array has at least 3 elements, and override
brightness and speed independently when present. `none` is returned exactly
when the C code returns before building a configuration. -/
def parseLedCommand (input : Option JVal) : Option PatternConfig :=
  match input with
  | none => none
  | some doc =>
    let docFields := match doc with
      | .jobj fs => fs
      | _ => []
    match fieldAsStr docFields "type" with
    | none => none
    | some t =>
      if t ≠ "led_command" then none
      else
        match fieldAsObj docFields "data" with
        | none => none
        | some dataObj =>
          match fieldAsStr dataObj "pattern" with
          | none => none
          | some patternStr =>
            let pattern := stringToPattern patternStr
            let base := PatternDefaults.getDefault pattern
            let cfg1 :=
              if containsKey dataObj "color" then
                let colorArray := fieldAsArr dataObj "color"
                if colorArray.length ≥ 3 then
                  { base with color :=
                      ⟨asUInt8 colorArray[0]?, asUInt8 colorArray[1]?,
                       asUInt8 colorArray[2]?⟩ }
                else base
              else base
            let cfg2 :=
              if containsKey dataObj "brightness" then
                { cfg1 with brightness := asUInt8 (lookupKey dataObj "brightness") }
              else cfg1
            let cfg3 :=
              if containsKey dataObj "speed" then
                { cfg2 with speed := asUInt16 (lookupKey dataObj "speed") }
              else cfg2
            some cfg3

/-! ## Animation engine state (`led_controller.h`) -/

/-- Strip length, from `#define NUM_LEDS 30` in `led_controller.h`. -/
def NUM_LEDS : Nat := 30

/-- Comet tail length used by both directional-flow patterns
(`uint8_t tailLength = 10` in `updateFlowUp` / `updateFlowDown`). The extra
steps added to the cycle (`stepsPerCycle = NUM_LEDS + 10`) use the same
constant 10 as the gap. -/
def tailLength : Nat := 10

/-- Per-LED comet brightness written by the flow loops:
`255 * (tailLength - i) / tailLength` for comet offset `i` behind the head.
This is the floor of a linear ramp that is 255 (full) at the head and reaches
0 at offset `tailLength`, one position past the last comet LED. -/
def cometScale (i : Nat) : Nat := 255 * (tailLength - i) / tailLength

/-- Mutable state of `LedController`: the active configuration, `cycleStart`
(a stored `millis()` reading) and the bounded `currentStep` counter. -/
structure ControllerState where
  config : PatternConfig
  cycleStart : Nat
  currentStep : Nat
deriving DecidableEq, Repr

/-- LedController::setPattern(config): install the configuration and reset
`cycleStart = millis()` (the 32-bit clock reading at time `now`) and
`currentStep = 0`. The accompanying `FastLED.setBrightness` call configures
the strip-driver collaborator and is outside the rendered color buffer. -/
def setPattern (cfg : PatternConfig) (now : Nat) : ControllerState :=
  ⟨cfg, now % M32, 0⟩

/-- LedController::updateBlink(now): when `now - cycleStart >= speed`
(unsigned 32-bit arithmetic), reset `cycleStart = now` and toggle
`currentStep` by C logical negation (`!0 = 1`, `!nonzero = 0`); then fill the
strip with the configured color when the (updated) step is nonzero, else
clear it. Returns the new state and the rendered color buffer. -/
def updateBlink (s : ControllerState) (now : Nat) : ControllerState × List CRGB :=
  let elapsed := usub32 now s.cycleStart
  let s' :=
    if elapsed ≥ s.config.speed then
      { s with cycleStart := now % M32,
               currentStep := if s.currentStep = 0 then 1 else 0 }
    else s
  (s', if s'.currentStep ≠ 0 then List.replicate NUM_LEDS s.config.color
       else List.replicate NUM_LEDS CRGB.black)

/-- Drawing loop of `LedController::updateFlowUp` (bottom-to-top comet),
parametrized by the strip length `numLeds` (the code's `NUM_LEDS`): after
`FastLED.clear()`, for `i` in `0..tailLength-1` light LED
`ledIndex = currentStep - i` (signed int arithmetic) with the comet
brightness, skipping positions outside `[0, numLeds)`. -/
def drawFlowUp (numLeds : Nat) (color : CRGB) (step : Nat) : List CRGB :=
  (List.range tailLength).foldl
    (fun (leds : List CRGB) (i : Nat) =>
      let ledIndex : Int := (step : Int) - (i : Int)
      if 0 ≤ ledIndex ∧ ledIndex < (numLeds : Int) then
        leds.set ledIndex.toNat (nscale8 color (cometScale i))
      else leds)
    (List.replicate numLeds CRGB.black)

/-- Drawing loop of `LedController::updateFlowDown` (top-to-bottom comet):
identical to `drawFlowUp` except the position is measured from the top end,
`ledIndex = (numLeds - 1) - (currentStep - i)` in signed int arithmetic. -/
def drawFlowDown (numLeds : Nat) (color : CRGB) (step : Nat) : List CRGB :=
  (List.range tailLength).foldl
    (fun (leds : List CRGB) (i : Nat) =>
      let ledIndex : Int := ((numLeds : Int) - 1) - ((step : Int) - (i : Int))
      if 0 ≤ ledIndex ∧ ledIndex < (numLeds : Int) then
        leds.set ledIndex.toNat (nscale8 color (cometScale i))
      else leds)
    (List.replicate numLeds CRGB.black)

/-- Generic single write of the two flow drawing loops: given the signed
position function `pos` and per-offset value `v`, set LED `pos i` when it lies
in `[0, numLeds)`, else leave the buffer unchanged. `drawFlowUp` uses
`pos i = step - i`; `drawFlowDown` uses `pos i = (numLeds - 1) - (step - i)`. -/
def drawStep (numLeds : Nat) (pos : Nat → Int) (v : Nat → CRGB)
    (leds : List CRGB) (i : Nat) : List CRGB :=
  if 0 ≤ pos i ∧ pos i < (numLeds : Int) then
    leds.set (pos i).toNat (v i)
  else leds

/-! ## Receive handler and link health (`esp_now_handler.h`, `main.cpp`) -/

/-- Combined state of `EspNowHandler` (its `messageCount : uint32_t` and
`lastMessageTime : unsigned long` fields) and the `LedController` reached
through the registered `onLedCommand` callback in `main.cpp`. -/
structure SystemState where
  messageCount : Nat
  lastMessageTime : Nat
  controller : ControllerState
deriving DecidableEq, Repr

/-- EspNowHandler::handleReceivedData followed by the `onLedCommand` callback
of `main.cpp`: the handler first unconditionally sets
`lastMessageTime = millis()` and increments `messageCount` (32-bit wrap),
before any validation; then the message is parsed, and only a successful
parse reaches the callback, which applies `setPattern`. A parse failure
returns with the controller untouched. `now` is the monotonic time in ms;
`millis()` reads it modulo 2^32. -/
def handleReceivedData (s : SystemState) (input : Option JVal) (now : Nat) :
    SystemState :=
  let s :=
    { s with lastMessageTime := now % M32,
             messageCount := (s.messageCount + 1) % M32 }
  match parseLedCommand input with
  | none => s
  | some cfg => { s with controller := setPattern cfg now }

/-- EspNowHandler::isConnected: `(millis() - lastMessageTime) < 5000` in
unsigned 32-bit arithmetic. -/
def isConnected (s : SystemState) (now : Nat) : Bool :=
  usub32 now s.lastMessageTime < 5000

/-- Fold of `handleReceivedData` over a stream of (input, arrival time)
pairs, as delivered by successive ESP-NOW receive callbacks. -/
def processAll (s : SystemState) (msgs : List (Option JVal × Nat)) : SystemState :=
  msgs.foldl (fun st m => handleReceivedData st m.1 m.2) s

/-! ## The naive configuration hand-off

`main.cpp` registers `onLedCommand`, which runs `ledController.setPattern`
directly from the ESP-NOW receive callback context. `setPattern` assigns the
whole multi-field `PatternConfig` struct (`currentConfig = config`), which at
machine level is a sequence of per-field stores; there is no staging slot and
no sequence number anywhere in the repository. The following models the four
field stores of that in-place struct assignment, in declaration order, so a
reader preempting the writer mid-copy can be evaluated. -/

/-- The four per-field stores performed by `currentConfig = config` in
`LedController::setPattern`, in field declaration order. -/
def configStores (c : PatternConfig) : List (PatternConfig → PatternConfig) :=
  [fun s => { s with pattern := c.pattern },
   fun s => { s with color := c.color },
   fun s => { s with brightness := c.brightness },
   fun s => { s with speed := c.speed }]

/-- Shared configuration observed by a main-loop reader that interleaves after
the first `k` of the four field stores of the asynchronous writer. -/
def tornSnapshot (old new : PatternConfig) (k : Nat) : PatternConfig :=
  ((configStores new).take k).foldl (fun s f => f s) old

/-! ## Concrete messages used by the claims -/

/-- A well-formed led_command message whose data object contains only the
`pattern` field. -/
def patternOnlyMsg (name : String) : JVal :=
  .jobj [("type", .jstr "led_command"),
         ("data", .jobj [("pattern", .jstr name)]),
         ("timestamp", .jnum 1699564800000)]

/-- A well-formed led_command message carrying a `pattern` and a numeric
`color` array. -/
def colorMsg (name : String) (xs : List Int) : JVal :=
  .jobj [("type", .jstr "led_command"),
         ("data", .jobj [("pattern", .jstr name),
                         ("color", .jarr (xs.map JVal.jnum))]),
         ("timestamp", .jnum 1699564800000)]

/-- The end-to-end example message of the spec:
type led_command, pattern EMERGENCY, color [255,0,0], brightness 255,
speed 100. -/
def emergencyMsg : JVal :=
  .jobj [("type", .jstr "led_command"),
         ("data", .jobj [("pattern", .jstr "EMERGENCY"),
                         ("color", .jarr [.jnum 255, .jnum 0, .jnum 0]),
                         ("brightness", .jnum 255),
                         ("speed", .jnum 100)])]

/-- The configuration the spec's end-to-end example expects from decoding
`emergencyMsg`. -/
def emergencyCfg : PatternConfig :=
  ⟨.EMERGENCY, ⟨255, 0, 0⟩, 255, 100⟩

/-! ## Helper lemmas -/

/-- FastLED scale 255 is the identity on every channel. -/
theorem nscale8_255 (c : CRGB) : nscale8 c 255 = c := by
  have h : ∀ x : Nat, scale8 x 255 = x := by
    intro x
    simp only [scale8]
    omega
  cases c with
  | mk r g b => simp [nscale8, h]

/-- Converting a pattern to its canonical name and back is the identity. -/
theorem roundtrip_aux (p : LedPattern) : stringToPattern (patternToString p) = p := by
  cases p <;> decide

/-- A string outside the canonical name list falls through every comparison of
`stringToPattern` to the IDLE fallback. -/
theorem stringToPattern_not_listed (s : String) (hs : s ∉ validPatternNames) :
    stringToPattern s = .IDLE := by
  simp only [validPatternNames, List.mem_cons, List.mem_singleton, not_or] at hs
  obtain ⟨h1, h2, h3, h4, h5, h6, h7, h8⟩ := hs
  simp [stringToPattern, h1, h2, h3, h4, h5, h6, h7, h8]

/-- Decoding a pattern-only message reduces to the catalog default of the
normalized pattern name. -/
theorem parse_patternOnly (s : String) :
    parseLedCommand (some (patternOnlyMsg s)) =
      some (PatternDefaults.getDefault (stringToPattern s)) := rfl

/-- Claim C9: for every pattern identifier in the closed 8-variant set,
`patternToString` followed by `stringToPattern` is the identity. -/
theorem pattern_string_roundtrip (p : LedPattern) :
    stringToPattern (patternToString p) = p :=
  roundtrip_aux p

/-- Claim C3: for each of the 8 pattern identifiers, decoding a well-formed
led_command message whose data object contains only the `pattern` field set to
that identifier's name yields exactly the catalog default configuration for
that identifier. -/
theorem decode_pattern_only_defaults (p : LedPattern) :
    parseLedCommand (some (patternOnlyMsg (patternToString p))) =
      some (PatternDefaults.getDefault p) := by
  rw [parse_patternOnly, roundtrip_aux]

/-- Claim C4: a pattern-name string that is empty or not one of the 8
identifiers decodes successfully to the catalog default for IDLE; in
particular the names "IDLE" and "" both yield the IDLE configuration. -/
theorem decode_unknown_pattern_idle :
    (∀ s : String, s ∉ validPatternNames →
      parseLedCommand (some (patternOnlyMsg s)) =
        some (PatternDefaults.getDefault .IDLE)) ∧
    parseLedCommand (some (patternOnlyMsg "IDLE")) =
      some (PatternDefaults.getDefault .IDLE) ∧
    parseLedCommand (some (patternOnlyMsg "")) =
      some (PatternDefaults.getDefault .IDLE) := by
  refine ⟨fun s hs => ?_, by decide, by decide⟩
  rw [parse_patternOnly, stringToPattern_not_listed s hs]

/-- Witness for the C4 theorem at the concrete unrecognized name "INVALID". -/
theorem decode_unknown_pattern_idle_witness :
    "INVALID" ∉ validPatternNames ∧
      parseLedCommand (some (patternOnlyMsg "INVALID")) =
        some (PatternDefaults.getDefault .IDLE) :=
  ⟨by decide, decode_unknown_pattern_idle.1 "INVALID" (by decide)⟩

/-- Claim C8 counterexample: `isConnected` is computed with 32-bit unsigned
subtraction, so with `last_seen = 0` and `now = 2^32` (far more than 5000 ms
later and with no new arrival) the difference wraps to 0 and the handler
reports connected, refuting "false for all later times until a new arrival". -/
theorem isConnected_wrap_counterexample :
    isConnected ⟨0, 0, ⟨PatternDefaults.getDefault .IDLE, 0, 0⟩⟩ M32 = true ∧
      5000 ≤ M32 - 0 := by
  constructor
  · decide
  · decide

/-- Claim C8 (amended): as long as the elapsed time since the last arrival is
below the 2^32 ms wrap of the 32-bit millisecond clock, `isConnected` returns
true iff `now - last_seen < 5000`; it is false exactly at 5000 and for all
later times in that range. -/
theorem isConnected_liveness_window (s : SystemState) (now : Nat)
    (h1 : s.lastMessageTime ≤ now) (h2 : now - s.lastMessageTime < M32) :
    isConnected s now = true ↔ now - s.lastMessageTime < 5000 := by
  simp only [isConnected, usub32, M32, decide_eq_true_eq] at *
  omega

/-- Witness for the C8 amended theorem at concrete times 3000 and 7000. -/
theorem isConnected_liveness_window_witness :
    ((3000 : Nat) ≤ 7000 ∧ (7000 : Nat) - 3000 < M32) ∧
      (isConnected ⟨5, 3000, ⟨PatternDefaults.getDefault .IDLE, 0, 0⟩⟩ 7000 = true ↔
        (7000 : Nat) - 3000 < 5000) :=
  ⟨⟨by decide, by decide⟩,
   isConnected_liveness_window ⟨5, 3000, ⟨PatternDefaults.getDefault .IDLE, 0, 0⟩⟩
     7000 (by decide) (by decide)⟩

/-- Claim C2 evaluation: the repository's hand-off is `onLedCommand` calling
`setPattern` from the receive-callback context, which assigns the multi-field
`PatternConfig` in place; there is no staging slot and no sequence number. A
reader interleaved after the first of the four field stores (old
configuration: the IDLE default; new: the EMERGENCY command) observes a torn
configuration that is neither the old nor the new value, the exact hazard the
publish-with-sequence discipline is required to exclude. -/
theorem naive_handoff_torn_read :
    tornSnapshot (PatternDefaults.getDefault .IDLE) emergencyCfg 0 =
        PatternDefaults.getDefault .IDLE ∧
      tornSnapshot (PatternDefaults.getDefault .IDLE) emergencyCfg 4 = emergencyCfg ∧
      tornSnapshot (PatternDefaults.getDefault .IDLE) emergencyCfg 1 ≠
        PatternDefaults.getDefault .IDLE ∧
      tornSnapshot (PatternDefaults.getDefault .IDLE) emergencyCfg 1 ≠ emergencyCfg := by
  refine ⟨by decide, by decide, by decide, by decide⟩

/-- Claim C1 counterexample: after applying the decoded EMERGENCY
configuration at time 0 (`currentStep = 0`), rendering at t = 0 leaves
`currentStep = 0` (elapsed 0 < speed 100), so `updateBlink` clears the strip:
the buffer is all-black, not all-red as the claim states. -/
theorem emergency_render_t0_not_red :
    parseLedCommand (some emergencyMsg) = some emergencyCfg ∧
      (updateBlink (setPattern emergencyCfg 0) 0).2 ≠
        List.replicate NUM_LEDS emergencyCfg.color := by
  constructor
  · decide
  · decide

/-- Claim C1 (amended): the example message decodes to the configuration
(EMERGENCY, (255,0,0), 255, 100); applying it at time 0 and rendering at t = 0
yields every LED off (the blink starts in its off phase), and rendering at
t = 150 (after one 100 ms toggle) yields every LED red. -/
theorem emergency_decode_render_amended :
    parseLedCommand (some emergencyMsg) = some emergencyCfg ∧
      (updateBlink (setPattern emergencyCfg 0) 0).2 =
        List.replicate NUM_LEDS CRGB.black ∧
      (updateBlink (updateBlink (setPattern emergencyCfg 0) 0).1 150).2 =
        List.replicate NUM_LEDS emergencyCfg.color := by
  refine ⟨by decide, by decide, by decide⟩

/-- Claim C6: deserialization failures (malformed JSON, null input, empty
input), a missing `type` key, a `type` other than led_command, a missing
`data` object, and a missing `pattern` field all make the decoder produce no
configuration; and whenever the decoder produces nothing, the receive step
leaves the controller — its active configuration and animation state —
unchanged. -/
theorem decode_failure_no_state_change :
    parseLedCommand none = none ∧
    (∀ fs, lookupKey fs "type" = none → parseLedCommand (some (.jobj fs)) = none) ∧
    (∀ fs t, lookupKey fs "type" = some (.jstr t) → t ≠ "led_command" →
      parseLedCommand (some (.jobj fs)) = none) ∧
    (∀ fs, lookupKey fs "type" = some (.jstr "led_command") →
      lookupKey fs "data" = none → parseLedCommand (some (.jobj fs)) = none) ∧
    (∀ fs ds, lookupKey fs "type" = some (.jstr "led_command") →
      lookupKey fs "data" = some (.jobj ds) → lookupKey ds "pattern" = none →
      parseLedCommand (some (.jobj fs)) = none) ∧
    (∀ s inp now, parseLedCommand inp = none →
      (handleReceivedData s inp now).controller = s.controller) := by
  refine ⟨rfl, ?_, ?_, ?_, ?_, ?_⟩
  · intro fs h
    simp [parseLedCommand, fieldAsStr, h]
  · intro fs t h ht
    simp [parseLedCommand, fieldAsStr, h, ht]
  · intro fs h hd
    simp [parseLedCommand, fieldAsStr, fieldAsObj, h, hd]
  · intro fs ds h hd hp
    simp [parseLedCommand, fieldAsStr, fieldAsObj, h, hd, hp]
  · intro s inp now h
    simp [handleReceivedData, h]

/-- Witness for the C6 theorem: concrete wrong-type, missing-data and
missing-pattern messages decode to nothing, and a failed decode leaves a
concrete controller state untouched. -/
theorem decode_failure_no_state_change_witness :
    parseLedCommand (some (.jobj [("type", .jstr "other_command"),
        ("data", .jobj [("pattern", .jstr "FLYING")])])) = none ∧
      parseLedCommand (some (.jobj [("type", .jstr "led_command"),
        ("timestamp", .jnum 1699564800000)])) = none ∧
      parseLedCommand (some (.jobj [("type", .jstr "led_command"),
        ("data", .jobj [("brightness", .jnum 128)])])) = none ∧
      (handleReceivedData ⟨7, 42, ⟨PatternDefaults.getDefault .FLYING, 9, 1⟩⟩
        none 99).controller = ⟨PatternDefaults.getDefault .FLYING, 9, 1⟩ :=
  ⟨decode_failure_no_state_change.2.2.1 _ "other_command" rfl (by decide),
   decode_failure_no_state_change.2.2.2.1 _ rfl rfl,
   decode_failure_no_state_change.2.2.2.2.1 _ _ rfl rfl rfl,
   decode_failure_no_state_change.2.2.2.2.2 _ none 99 rfl⟩

/-- Decoding a message with a pattern and a numeric color array reduces to a
conditional override on the array length. -/
theorem parse_colorMsg (name : String) (xs : List Int) :
    parseLedCommand (some (colorMsg name xs)) =
      some (if (xs.map JVal.jnum).length ≥ 3 then
              { PatternDefaults.getDefault (stringToPattern name) with
                  color := ⟨asUInt8 (xs.map JVal.jnum)[0]?,
                            asUInt8 (xs.map JVal.jnum)[1]?,
                            asUInt8 (xs.map JVal.jnum)[2]?⟩ }
            else PatternDefaults.getDefault (stringToPattern name)) := rfl

/-- Claim C5: for every decoded message carrying a color field, an array of
fewer than 3 elements is a no-op (the pattern's default color is retained),
while an array of 3 or more elements overrides the color using exactly its
first three elements, each converted into the 0-255 range by ArduinoJson's
range-checked `as<uint8_t>` (an in-range integer is taken as is, anything
else reads as 0). -/
theorem decode_color_override (name : String) (xs : List Int) :
    (xs.length < 3 →
      parseLedCommand (some (colorMsg name xs)) =
        some (PatternDefaults.getDefault (stringToPattern name))) ∧
    (∀ a b c rest, xs = a :: b :: c :: rest →
      parseLedCommand (some (colorMsg name xs)) =
        some { PatternDefaults.getDefault (stringToPattern name) with
                 color := ⟨if 0 ≤ a ∧ a ≤ 255 then a.toNat else 0,
                           if 0 ≤ b ∧ b ≤ 255 then b.toNat else 0,
                           if 0 ≤ c ∧ c ≤ 255 then c.toNat else 0⟩ } ∧
        (if 0 ≤ a ∧ a ≤ 255 then a.toNat else 0) < 256 ∧
        (if 0 ≤ b ∧ b ≤ 255 then b.toNat else 0) < 256 ∧
        (if 0 ≤ c ∧ c ≤ 255 then c.toNat else 0) < 256) := by
  constructor
  · intro hlen
    rw [parse_colorMsg, if_neg]
    simp only [List.length_map]
    omega
  · rintro a b c rest rfl
    refine ⟨?_, ?_, ?_, ?_⟩
    · rw [parse_colorMsg, if_pos (by simp)]
      simp [asUInt8]
    · split <;> omega
    · split <;> omega
    · split <;> omega

/-- Witness for the C5 theorem: a 2-element array keeps the IDLE default
color, and a 3-element array with out-of-range entries (300 and -1 both read
as 0) overrides with the converted channels. -/
theorem decode_color_override_witness :
    (([10, 20] : List Int).length < 3 ∧
      parseLedCommand (some (colorMsg "IDLE" [10, 20])) =
        some (PatternDefaults.getDefault (stringToPattern "IDLE"))) ∧
      (parseLedCommand (some (colorMsg "EMERGENCY" [300, -1, 7])) =
        some { PatternDefaults.getDefault (stringToPattern "EMERGENCY") with
                 color := ⟨if 0 ≤ (300 : Int) ∧ (300 : Int) ≤ 255 then (300 : Int).toNat else 0,
                           if 0 ≤ (-1 : Int) ∧ (-1 : Int) ≤ 255 then (-1 : Int).toNat else 0,
                           if 0 ≤ (7 : Int) ∧ (7 : Int) ≤ 255 then (7 : Int).toNat else 0⟩ } ∧
        (if 0 ≤ (300 : Int) ∧ (300 : Int) ≤ 255 then (300 : Int).toNat else 0) < 256 ∧
        (if 0 ≤ (-1 : Int) ∧ (-1 : Int) ≤ 255 then (-1 : Int).toNat else 0) < 256 ∧
        (if 0 ≤ (7 : Int) ∧ (7 : Int) ≤ 255 then (7 : Int).toNat else 0) < 256) :=
  ⟨⟨by decide, (decode_color_override "IDLE" [10, 20]).1 (by decide)⟩,
   (decode_color_override "EMERGENCY" [300, -1, 7]).2 300 (-1) 7 [] rfl⟩

/-- The receive step records the arrival time unconditionally, whatever the
parse outcome. -/
theorem handle_lastMessageTime (s : SystemState) (inp : Option JVal) (now : Nat) :
    (handleReceivedData s inp now).lastMessageTime = now % M32 := by
  unfold handleReceivedData
  cases h : parseLedCommand inp <;> simp [h]

/-- The receive step increments the message counter unconditionally, whatever
the parse outcome. -/
theorem handle_messageCount (s : SystemState) (inp : Option JVal) (now : Nat) :
    (handleReceivedData s inp now).messageCount = (s.messageCount + 1) % M32 := by
  unfold handleReceivedData
  cases h : parseLedCommand inp <;> simp [h]

/-- A stream of messages that all fail to decode never touches the
controller. -/
theorem processAll_controller_invalid (msgs : List (Option JVal × Nat)) :
    ∀ s : SystemState, (∀ m ∈ msgs, parseLedCommand m.1 = none) →
      (processAll s msgs).controller = s.controller := by
  induction msgs with
  | nil => intro s _; rfl
  | cons m rest ih =>
    intro s h
    have hm : parseLedCommand m.1 = none := h m (List.mem_cons_self m rest)
    have hrest : ∀ m' ∈ rest, parseLedCommand m'.1 = none :=
      fun m' hm' => h m' (List.mem_cons_of_mem m hm')
    show (processAll (handleReceivedData s m.1 m.2) rest).controller = s.controller
    rw [ih _ hrest]
    simp [handleReceivedData, hm]

/-- After a nonempty stream, the stored arrival time is the 32-bit clock
reading of the last message. -/
theorem processAll_lastMessageTime (msgs : List (Option JVal × Nat)) :
    ∀ (s : SystemState) (inp : Option JVal) (t : Nat),
      msgs.getLast? = some (inp, t) →
      (processAll s msgs).lastMessageTime = t % M32 := by
  induction msgs with
  | nil => intro s inp t h; simp at h
  | cons m rest ih =>
    intro s inp t h
    cases rest with
    | nil =>
      simp only [List.getLast?_singleton, Option.some_inj] at h
      subst h
      exact handle_lastMessageTime s inp t
    | cons r rs =>
      rw [List.getLast?_cons_cons] at h
      exact ih _ inp t h

/-- Claim C10: every invocation of the receive handler records the arrival
time and increments the message counter (a 32-bit counter, exact below its
wrap) before any validation, for every input including ones that fail to
decode; consequently a stream consisting only of invalid messages produces no
configuration, yet keeps `isConnected` true at any time within 5000 ms of the
last (invalid) arrival. -/
theorem receive_stats_first :
    (∀ (s : SystemState) (inp : Option JVal) (now : Nat),
      (handleReceivedData s inp now).lastMessageTime = now % M32 ∧
      (handleReceivedData s inp now).messageCount = (s.messageCount + 1) % M32) ∧
    (∀ (s : SystemState) (inp : Option JVal) (now : Nat),
      s.messageCount + 1 < M32 →
      (handleReceivedData s inp now).messageCount = s.messageCount + 1) ∧
    (∀ (s : SystemState) (msgs : List (Option JVal × Nat)) (inp : Option JVal)
        (t now : Nat),
      (∀ m ∈ msgs, parseLedCommand m.1 = none) →
      msgs.getLast? = some (inp, t) →
      t ≤ now → now - t < 5000 →
      (processAll s msgs).controller = s.controller ∧
      isConnected (processAll s msgs) now = true) := by
  refine ⟨fun s inp now => ⟨handle_lastMessageTime s inp now,
    handle_messageCount s inp now⟩, ?_, ?_⟩
  · intro s inp now h
    rw [handle_messageCount, Nat.mod_eq_of_lt h]
  · intro s msgs inp t now hinv hlast ht hwin
    refine ⟨processAll_controller_invalid msgs s hinv, ?_⟩
    rw [isConnected, processAll_lastMessageTime msgs s inp t hlast]
    simp only [usub32, M32, decide_eq_true_eq]
    omega

/-- Witness for the C10 theorem: concrete receive steps and a two-element
all-invalid stream observed 700 ms after its last message. -/
theorem receive_stats_first_witness :
    ((handleReceivedData ⟨7, 42, ⟨PatternDefaults.getDefault .IDLE, 0, 0⟩⟩
        none 3).lastMessageTime = 3 % M32 ∧
      (handleReceivedData ⟨7, 42, ⟨PatternDefaults.getDefault .IDLE, 0, 0⟩⟩
        none 3).messageCount = (7 + 1) % M32) ∧
      ((7 : Nat) + 1 < M32 ∧
        (handleReceivedData ⟨7, 42, ⟨PatternDefaults.getDefault .IDLE, 0, 0⟩⟩
          none 3).messageCount = 7 + 1) ∧
      ((processAll ⟨7, 42, ⟨PatternDefaults.getDefault .IDLE, 0, 0⟩⟩
          [(none, 10), (none, 400)]).controller =
        ⟨PatternDefaults.getDefault .IDLE, 0, 0⟩ ∧
        isConnected (processAll ⟨7, 42, ⟨PatternDefaults.getDefault .IDLE, 0, 0⟩⟩
          [(none, 10), (none, 400)]) 1100 = true) :=
  ⟨receive_stats_first.1 _ none 3,
   ⟨by decide, receive_stats_first.2.1 _ none 3 (by decide)⟩,
   receive_stats_first.2.2 _ [(none, 10), (none, 400)] none 400 1100
     (by decide) rfl (by decide) (by decide)⟩

/-- Folding draw steps preserves the buffer length. -/
theorem foldl_drawStep_length (N : Nat) (pos : Nat → Int) (v : Nat → CRGB) :
    ∀ (offs : List Nat) (init : List CRGB),
      (offs.foldl (drawStep N pos v) init).length = init.length := by
  intro offs
  induction offs with
  | nil => intro init; rfl
  | cons i rest ih =>
    intro init
    rw [List.foldl_cons, ih]
    unfold drawStep
    split <;> simp

/-- A buffer position not targeted by any offset keeps its initial value. -/
theorem foldl_drawStep_get_miss (N : Nat) (pos : Nat → Int) (v : Nat → CRGB) :
    ∀ (offs : List Nat) (init : List CRGB) (j : Nat),
      (∀ i ∈ offs, pos i ≠ (j : Int)) →
      (offs.foldl (drawStep N pos v) init)[j]? = init[j]? := by
  intro offs
  induction offs with
  | nil => intro init j _; rfl
  | cons i rest ih =>
    intro init j h
    have hi : pos i ≠ (j : Int) := h i (List.mem_cons_self i rest)
    rw [List.foldl_cons, ih _ j (fun i' hi' => h i' (List.mem_cons_of_mem i hi'))]
    unfold drawStep
    split
    · next hc => exact List.getElem?_set_ne (by omega)
    · rfl

/-- The buffer position targeted by a listed offset receives that offset's
value, provided the position function is injective and the offsets are
distinct. -/
theorem foldl_drawStep_get_hit (N : Nat) (pos : Nat → Int) (v : Nat → CRGB)
    (hinj : ∀ i₁ i₂, pos i₁ = pos i₂ → i₁ = i₂) :
    ∀ (offs : List Nat) (init : List CRGB) (i j : Nat),
      offs.Nodup → i ∈ offs → pos i = (j : Int) → j < N → j < init.length →
      (offs.foldl (drawStep N pos v) init)[j]? = some (v i) := by
  intro offs
  induction offs with
  | nil => intro init i j _ hi; exact absurd hi (List.not_mem_nil i)
  | cons i₀ rest ih =>
    intro init i j hnd hi hpos hjN hjlen
    rw [List.foldl_cons]
    rcases List.mem_cons.mp hi with rfl | hmem
    · have hrestmiss : ∀ i' ∈ rest, pos i' ≠ (j : Int) := by
        intro i' hi' hcontra
        have heq : i' = i := hinj i' i (hcontra.trans hpos.symm)
        exact (List.nodup_cons.mp hnd).1 (heq ▸ hi')
      rw [foldl_drawStep_get_miss N pos v rest _ j hrestmiss]
      unfold drawStep
      rw [if_pos ⟨by omega, by omega⟩]
      have htn : (pos i).toNat = j := by omega
      rw [htn]
      exact List.getElem?_set_self hjlen
    · have hne : pos i₀ ≠ (j : Int) := by
        intro hcontra
        have heq : i₀ = i := hinj i₀ i (hcontra.trans hpos.symm)
        exact (List.nodup_cons.mp hnd).1 (heq ▸ hmem)
      apply ih _ i j (List.nodup_cons.mp hnd).2 hmem hpos hjN
      unfold drawStep
      split <;> simpa using hjlen

/-- The flow-up drawing loop is the generic fold with position
`step - i`. -/
theorem drawFlowUp_eq (numLeds : Nat) (c : CRGB) (step : Nat) :
    drawFlowUp numLeds c step =
      (List.range tailLength).foldl
        (drawStep numLeds (fun i => (step : Int) - (i : Int))
          (fun i => nscale8 c (cometScale i)))
        (List.replicate numLeds CRGB.black) := rfl

/-- The flow-down drawing loop is the generic fold with position
`(numLeds - 1) - (step - i)`. -/
theorem drawFlowDown_eq (numLeds : Nat) (c : CRGB) (step : Nat) :
    drawFlowDown numLeds c step =
      (List.range tailLength).foldl
        (drawStep numLeds
          (fun i => ((numLeds : Int) - 1) - ((step : Int) - (i : Int)))
          (fun i => nscale8 c (cometScale i)))
        (List.replicate numLeds CRGB.black) := rfl

/-- On-strip comet LED of the flow-up frame: offset `i` behind the head lights
LED `step - i` with the comet brightness. -/
theorem drawFlowUp_get_hit (numLeds : Nat) (c : CRGB) (step j i : Nat)
    (hi : i < tailLength) (hij : (step : Int) - (i : Int) = (j : Int))
    (hjN : j < numLeds) :
    (drawFlowUp numLeds c step)[j]? = some (nscale8 c (cometScale i)) := by
  rw [drawFlowUp_eq]
  apply foldl_drawStep_get_hit numLeds _ _ (fun a b h => by omega)
    (List.range tailLength) _ i j (List.nodup_range tailLength)
    (List.mem_range.mpr hi) hij hjN
  simpa using hjN

/-- A flow-up frame position hit by no comet offset stays black. -/
theorem drawFlowUp_get_miss (numLeds : Nat) (c : CRGB) (step j : Nat)
    (hjN : j < numLeds)
    (h : ∀ i, i < tailLength → (step : Int) - (i : Int) ≠ (j : Int)) :
    (drawFlowUp numLeds c step)[j]? = some CRGB.black := by
  rw [drawFlowUp_eq,
    foldl_drawStep_get_miss _ _ _ _ _ j (fun i hi => h i (List.mem_range.mp hi))]
  exact List.getElem?_replicate_of_lt hjN

/-- On-strip comet LED of the flow-down frame: offset `i` behind the head
lights LED `(numLeds - 1) - (step - i)` with the comet brightness. -/
theorem drawFlowDown_get_hit (numLeds : Nat) (c : CRGB) (step j i : Nat)
    (hi : i < tailLength)
    (hij : ((numLeds : Int) - 1) - ((step : Int) - (i : Int)) = (j : Int))
    (hjN : j < numLeds) :
    (drawFlowDown numLeds c step)[j]? = some (nscale8 c (cometScale i)) := by
  rw [drawFlowDown_eq]
  apply foldl_drawStep_get_hit numLeds _ _ (fun a b h => by omega)
    (List.range tailLength) _ i j (List.nodup_range tailLength)
    (List.mem_range.mpr hi) hij hjN
  simpa using hjN

/-- A flow-down frame position hit by no comet offset stays black. -/
theorem drawFlowDown_get_miss (numLeds : Nat) (c : CRGB) (step j : Nat)
    (hjN : j < numLeds)
    (h : ∀ i, i < tailLength →
      ((numLeds : Int) - 1) - ((step : Int) - (i : Int)) ≠ (j : Int)) :
    (drawFlowDown numLeds c step)[j]? = some CRGB.black := by
  rw [drawFlowDown_eq,
    foldl_drawStep_get_miss _ _ _ _ _ j (fun i hi => h i (List.mem_range.mp hi))]
  exact List.getElem?_replicate_of_lt hjN

/-- Claim C7: for a strip of N LEDs and gap 10, flow rendering at step 0
illuminates only the starting-edge LED (index 0 for flow-up TAKING_OFF,
index N-1 for flow-down LANDING) at full color; at step N+gap-1 no comet LED
lies within the strip so the frame is fully dark; within the comet the LED at
offset i behind the head carries the brightness factor
cometScale i = 255*(10-i)/10, the floor of a linear ramp that is full (255)
at the head and reaches 0 at offset 10, one position past the tail; and the
frame has exactly N positions, so off-strip comet positions are never
drawn. -/
theorem flow_rendering_spec (N : Nat) (c : CRGB) (hN : 0 < N) :
    ((drawFlowUp N c 0)[0]? = some c ∧
      ∀ j, 0 < j → j < N → (drawFlowUp N c 0)[j]? = some CRGB.black) ∧
    ((drawFlowDown N c 0)[N - 1]? = some c ∧
      ∀ j, j < N - 1 → (drawFlowDown N c 0)[j]? = some CRGB.black) ∧
    (∀ j, j < N → (drawFlowUp N c (N + tailLength - 1))[j]? = some CRGB.black) ∧
    (∀ j, j < N → (drawFlowDown N c (N + tailLength - 1))[j]? = some CRGB.black) ∧
    (∀ step i, i < tailLength → i ≤ step → step - i < N →
      (drawFlowUp N c step)[step - i]? = some (nscale8 c (cometScale i))) ∧
    (∀ step i, i < tailLength → i ≤ step → step - i < N →
      (drawFlowDown N c step)[N - 1 - (step - i)]? =
        some (nscale8 c (cometScale i))) ∧
    (∀ step, (drawFlowUp N c step).length = N ∧
      (drawFlowDown N c step).length = N) ∧
    cometScale 0 = 255 ∧ cometScale tailLength = 0 := by
  refine ⟨⟨?_, ?_⟩, ⟨?_, ?_⟩, ?_, ?_, ?_, ?_, ?_, by decide, by decide⟩
  · rw [drawFlowUp_get_hit N c 0 0 0 (by decide) (by decide) hN,
      show cometScale 0 = 255 from rfl, nscale8_255]
  · intro j hj0 hjN
    exact drawFlowUp_get_miss N c 0 j hjN (by intro i hi; omega)
  · rw [drawFlowDown_get_hit N c 0 (N - 1) 0 (by decide) (by omega) (by omega),
      show cometScale 0 = 255 from rfl, nscale8_255]
  · intro j hj
    refine drawFlowDown_get_miss N c 0 j (by omega) ?_
    intro i hi
    simp only [tailLength] at hi
    omega
  · intro j hj
    refine drawFlowUp_get_miss N c (N + tailLength - 1) j hj ?_
    intro i hi
    simp only [tailLength] at hi ⊢
    omega
  · intro j hj
    refine drawFlowDown_get_miss N c (N + tailLength - 1) j hj ?_
    intro i hi
    simp only [tailLength] at hi ⊢
    omega
  · intro step i hi hile hlt
    exact drawFlowUp_get_hit N c step (step - i) i hi (by omega) hlt
  · intro step i hi hile hlt
    exact drawFlowDown_get_hit N c step (N - 1 - (step - i)) i hi (by omega) (by omega)
  · intro step
    constructor
    · rw [drawFlowUp_eq, foldl_drawStep_length]
      simp
    · rw [drawFlowDown_eq, foldl_drawStep_length]
      simp

/-- Witness for the C7 theorem at the code's strip length 30 and the
TAKING_OFF default color green. -/
theorem flow_rendering_spec_witness :
    0 < 30 ∧ (drawFlowUp 30 ⟨0, 255, 0⟩ 0)[0]? = some ⟨0, 255, 0⟩ :=
  ⟨by decide, (flow_rendering_spec 30 ⟨0, 255, 0⟩ (by decide)).1.1⟩

end DroneLed
